import Mathlib

/-!
Verification development for the faxitron Hamamatsu sensor driver
(src/faxitron/ham.py).  The Python source is shallowly embedded: byte
buffers become lists of natural numbers, the mutable capture session
becomes an explicit state record, exceptions become an error type, and
the asynchronous event loop of CapImgN.run becomes a deterministic
interpreter over an explicit schedule of delivered transfer buffers.
-/

/-- Marker emitted on the streaming endpoint after an abort command. -/
def MSG_ABORTED : Nat := 0x8001

/-- Marker that opens a frame on the streaming endpoint. -/
def MSG_BEGIN : Nat := 0x8002

/-- Marker that closes a frame on the streaming endpoint. -/
def MSG_END : Nat := 0x8004

/-- Observed but unexplained marker; treated as a recoverable desync. -/
def MSG_WTF : Nat := 0x8005

/-- Size in bytes of the meaningful part of an END buffer. -/
def MSG_END_SZ : Nat := 6

/-- END trailer status for an accepted frame. -/
def STATUS_OK : Nat := 3

/-- END trailer status for a rejected frame. -/
def STATUS_NOK : Nat := 7

/-- Python exceptions relevant to this module. -/
inductive PyErr : Type
  /-- A failed assert statement. -/
  | assertError : PyErr
  /-- struct.error from struct.pack or struct.unpack. -/
  | structError : PyErr
  /-- TypeError from using None where a buffer is expected. -/
  | noneError : PyErr
  /-- IndexError, e.g. from PIL putpixel out of range. -/
  | indexError : PyErr
  deriving DecidableEq, Repr

/-- Result of running a fallible piece of Python code. -/
inductive PyResult (a : Type) : Type
  /-- Normal return value. -/
  | ok (val : a) : PyResult a
  /-- A raised exception. -/
  | exn (e : PyErr) : PyResult a
  deriving DecidableEq, Repr

/-- ham.unpack16_le: little-endian 16-bit word from the first two bytes. -/
def unpack16_le (buff : List Nat) : Nat :=
  buff.getD 0 0 + 256 * buff.getD 1 0

/-- Big-endian 4-byte encoding of an unsigned 32-bit value. -/
def pack_u32be (n : Nat) : List Nat :=
  [n / 0x1000000 % 256, n / 0x10000 % 256, n / 256 % 256, n % 256]

/-- A Python value passed as a positional argument to struct.pack. -/
inductive PyVal : Type
  /-- An integer argument. -/
  | pyint (n : Nat) : PyVal
  /-- A tuple argument (a single object, not splatted). -/
  | pytuple (vs : List PyVal) : PyVal

/-- Python struct.pack with format >II: needs exactly two integer
arguments, each in unsigned 32-bit range; anything else raises
struct.error. -/
def structPackII (args : List PyVal) : PyResult (List Nat) :=
  match args with
  | [PyVal.pyint a, PyVal.pyint b] =>
    if a < 2 ^ 32 ∧ b < 2 ^ 32 then PyResult.ok (pack_u32be a ++ pack_u32be b)
    else PyResult.exn PyErr.structError
  | _ => PyResult.exn PyErr.structError

/-- ham.cmd1, encoding step (line 76): the source passes the single tuple
(opcode, len(payload)) to struct.pack instead of two separate integers,
then appends the payload to the packed header. -/
def cmd1_buff (opcode : Nat) (payload : List Nat) : PyResult (List Nat) :=
  match structPackII [PyVal.pytuple [PyVal.pyint opcode, PyVal.pyint payload.length]] with
  | PyResult.ok hdr => PyResult.ok (hdr ++ payload)
  | PyResult.exn e => PyResult.exn e

/-- A PIL image: xsize columns, ysize rows, row-major pixel grid. -/
structure PILImage : Type where
  /-- Number of columns (the first component of the PIL size pair). -/
  xsize : Nat
  /-- Number of rows (the second component of the PIL size pair). -/
  ysize : Nat
  /-- Row-major pixel rows. -/
  pix : List (List Nat)
  deriving DecidableEq, Repr

/-- PIL Image.new for mode I filled with a constant color. -/
def imageNew (xsize ysize fill : Nat) : PILImage :=
  { xsize := xsize, ysize := ysize,
    pix := List.replicate ysize (List.replicate xsize fill) }

/-- PIL Image.putpixel: writes at column x, row y; raises IndexError when
the coordinate is outside the image. -/
def putpixel (img : PILImage) (x y v : Nat) : PyResult PILImage :=
  if x < img.xsize ∧ y < img.ysize then
    PyResult.ok { img with pix := img.pix.set y ((img.pix.getD y []).set x v) }
  else PyResult.exn PyErr.indexError

/-- Inner loop of ham.decode over the column indices of one row: reads the
two bytes of each pixel from the row slice and writes the little-endian
value with putpixel, raising IndexError on any out-of-range access. -/
def decodePixels (line0 : List Nat) (y : Nat) : List Nat → PILImage → PyResult PILImage
  | [], img => PyResult.ok img
  | x :: xs, img =>
    match line0[2 * x]?, line0[2 * x + 1]? with
    | some b0, some b1 =>
      match putpixel img x y ((b1 <<< 8) + b0) with
      | PyResult.ok img2 => decodePixels line0 y xs img2
      | PyResult.exn e => PyResult.exn e
    | _, _ => PyResult.exn PyErr.indexError

/-- Outer loop of ham.decode over the row indices: slices one row of bytes
out of the buffer and decodes its pixels. -/
def decodeRows (buff : List Nat) (width depth : Nat) : List Nat → PILImage → PyResult PILImage
  | [], img => PyResult.ok img
  | y :: ys, img =>
    let line0 := (buff.drop (y * width * depth)).take (width * depth)
    match decodePixels line0 y (List.range width) img with
    | PyResult.ok img2 => decodeRows buff width depth ys img2
    | PyResult.exn e => PyResult.exn e

/-- ham.decode (lines 477-491): asserts the buffer size, creates the PIL
image with size (height, width) — the source swaps the two axes — filled
white (value 255 in mode I), then writes pixel (x, y) from bytes
2*x, 2*x+1 of row slice y. -/
def decode (buff : List Nat) (width height depth : Nat) : PyResult PILImage :=
  if buff.length = width * height * depth then
    decodeRows buff width depth (List.range height) (imageNew height width 255)
  else PyResult.exn PyErr.assertError

/-- Hamamatsu.decode (lines 632-633): calls the module-level decode with
the session width and height but has no return statement, so the method
returns None on success. -/
def Hamamatsu_decode (width height : Nat) (buff : List Nat) : PyResult (Option PILImage) :=
  match decode buff width height 2 with
  | PyResult.ok _ => PyResult.ok none
  | PyResult.exn e => PyResult.exn e

/-- Mutable state of one CapImgN capture session.  The field state holds
MSG_END while waiting for a BEGIN marker (the WAITING_BEGIN condition of
the spec) and MSG_BEGIN while inside a frame (IN_FRAME).  The counter
urb_remain is the count of outstanding asynchronous reads as the source
tracks it; it is a Python int, so it is modelled as an integer. -/
structure CapImgN : Type where
  /-- Image width in pixels. -/
  width : Nat
  /-- Image height in pixels. -/
  height : Nat
  /-- Bytes per pixel (2 for this sensor family). -/
  depth : Nat
  /-- Target number of accepted frames. -/
  n : Nat
  /-- Frame-sync state: MSG_END = waiting for BEGIN, MSG_BEGIN = in frame. -/
  state : Nat
  /-- Accumulation buffer, present only while a frame is open. -/
  rawbuff : Option (List Nat)
  /-- Accepted frames: (counter, raw image bytes, footer value). -/
  completions : List (Nat × List Nat × Nat)
  /-- Bookkeeping count of outstanding asynchronous reads. -/
  urb_remain : Int
  /-- Per-frame packet counter, kept for debugging. -/
  packets : Nat
  /-- False once the session is stopping (target reached or fatal error). -/
  running : Bool
  deriving DecidableEq, Repr

/-- CapImgN.__init__ with verbose handling dropped. -/
def CapImgN.init (width height depth n : Nat) : CapImgN :=
  { width := width, height := height, depth := depth, n := n,
    state := MSG_END, rawbuff := none, completions := [],
    urb_remain := 0, packets := 0, running := true }

/-- Raw image size in bytes: width * height * depth. -/
def CapImgN.imgsz (s : CapImgN) : Nat :=
  s.width * s.height * s.depth

/-- Image plus 2-byte footer size in bytes. -/
def CapImgN.imgx_sz (s : CapImgN) : Nat :=
  s.imgsz + 2

/-- Maximum number of asynchronous reads the source keeps outstanding. -/
def CapImgN.urb_max : Nat := 31

/-- ham.is_sync: 0 for an empty buffer, the leading little-endian word if
it is a control marker (at least 0x4000), 0 otherwise.  A one-byte buffer
makes struct.unpack raise struct.error. -/
def is_sync (buff : List Nat) : PyResult Nat :=
  if buff.length = 0 then PyResult.ok 0
  else if buff.length = 1 then PyResult.exn PyErr.structError
  else
    let pack2u := unpack16_le buff
    PyResult.ok (if 0x4000 ≤ pack2u then pack2u else 0)

/-- CapImgN.process_end (lines 362-406).  Returns the state after all
mutations performed up to the return or the raise, plus the exception if
one was raised.  The accumulation buffer is split and reassigned before
the trailer is parsed, exactly as in the source. -/
def CapImgN.process_end (s : CapImgN) (endbuff : List Nat) : CapImgN × Option PyErr :=
  match s.rawbuff with
  | none => (s, some PyErr.noneError)
  | some rb =>
    let buff := rb.take s.imgx_sz
    let s1 := { s with rawbuff := some (rb.drop s.imgx_sz) }
    let rawimg := buff.take s.imgsz
    let footer := buff.drop s.imgsz
    if footer.length = 2 then
      let average := unpack16_le footer
      if 2 ≤ endbuff.length then
        let opcode := unpack16_le endbuff
        let endbuff6 := endbuff.take MSG_END_SZ
        if opcode = MSG_END then
          if endbuff6.length = 6 then
            let status := unpack16_le (endbuff6.drop 2)
            let counter := unpack16_le (endbuff6.drop 4)
            if status = STATUS_NOK then (s1, none)
            else if status = STATUS_OK then
              if rawimg.length = s.imgsz then
                ({ s1 with completions := s1.completions ++ [(counter, rawimg, average)] }, none)
              else (s1, some PyErr.assertError)
            else (s1, some PyErr.assertError)
          else (s1, some PyErr.structError)
        else (s1, some PyErr.assertError)
      else (s1, some PyErr.structError)
    else (s1, some PyErr.structError)

/-- CapImgN.handle_buff (lines 322-360): the frame-sync state machine
step for one completed read buffer. -/
def CapImgN.handle_buff (s : CapImgN) (buff : List Nat) : CapImgN × Option PyErr :=
  match is_sync buff with
  | PyResult.exn e => (s, some e)
  | PyResult.ok sync =>
    if sync = MSG_WTF then
      ({ s with state := MSG_END, rawbuff := none }, none)
    else if s.state = MSG_END then
      if sync = 0 then (s, none)
      else if sync = MSG_END then (s, none)
      else if sync = MSG_BEGIN then
        ({ s with state := MSG_BEGIN, rawbuff := some [], packets := 0 }, none)
      else (s, some PyErr.assertError)
    else if s.state = MSG_BEGIN then
      if sync = 0 then
        match s.rawbuff with
        | some rb => ({ s with packets := s.packets + 1, rawbuff := some (rb ++ buff) }, none)
        | none => (s, some PyErr.noneError)
      else if sync = MSG_END then
        match CapImgN.process_end s buff with
        | (s1, some e) => (s1, some e)
        | (s1, none) => ({ s1 with rawbuff := none, state := MSG_END }, none)
      else (s, some PyErr.assertError)
    else (s, some PyErr.assertError)

/-- CapImgN.async_cb (lines 408-425): the completion callback of one
asynchronous read.  The returned Bool records whether the transfer was
resubmitted.  In the source an exception from handle_buff sets running to
False, skips the resubmit block and propagates. -/
def CapImgN.async_cb (s : CapImgN) (buff : List Nat) : CapImgN × Option PyErr × Bool :=
  if s.running then
    match CapImgN.handle_buff s buff with
    | (s1, some e) => ({ s1 with running := false }, some e, false)
    | (s1, none) =>
      if s1.state = MSG_END ∧ s1.urb_remain = 1 then (s1, none, true)
      else if s1.state = MSG_BEGIN then (s1, none, true)
      else (s1, none, false)
  else ({ s with urb_remain := s.urb_remain - 1 }, none, false)

/-- Interpreter state for CapImgN.run: the session, the number of
transfers actually outstanding against the endpoint (live), and a trace
of snapshots (machine state word, bookkeeping read count, live read
count) taken after every allocation and after every completed
callback. -/
structure RunState : Type where
  /-- The capture session. -/
  cap : CapImgN
  /-- Transfers actually submitted and not yet completed or dangling. -/
  live : Nat
  /-- Snapshots (state, urb_remain, live) over the execution. -/
  trace : List (Nat × Int × Nat)
  deriving DecidableEq, Repr

/-- CapImgN.alloc_urb (lines 427-434): submit k fresh transfers, raising
both the bookkeeping count and the live count. -/
def allocUrb (rs : RunState) (k : Nat) : RunState :=
  { cap := { rs.cap with urb_remain := rs.cap.urb_remain + k }, live := rs.live + k,
    trace := rs.trace ++ [(rs.cap.state, rs.cap.urb_remain + k, rs.live + k)] }

/-- Delivery of one completed transfer during handleEventsTimeout: the
callback runs only if a transfer is actually outstanding; a resubmission
keeps it live, otherwise it is gone. -/
def handleEvent (rs : RunState) (buff : List Nat) : RunState × Option PyErr :=
  if rs.live = 0 then (rs, none)
  else
    match CapImgN.async_cb rs.cap buff with
    | (cap1, some e, _) =>
      ({ cap := cap1, live := rs.live - 1,
         trace := rs.trace ++ [(cap1.state, cap1.urb_remain, rs.live - 1)] }, some e)
    | (cap1, none, resub) =>
      ({ cap := cap1, live := if resub then rs.live - 1 + 1 else rs.live - 1,
         trace := rs.trace ++
           [(cap1.state, cap1.urb_remain, if resub then rs.live - 1 + 1 else rs.live - 1)] },
        none)

/-- One usbcontext.handleEventsTimeout call: deliver the scheduled
buffers in order, stopping at the first exception, which propagates. -/
def handleEvents : RunState → List (List Nat) → RunState × Option PyErr
  | rs, [] => (rs, none)
  | rs, b :: bs =>
    match handleEvent rs b with
    | (rs1, some e) => (rs1, some e)
    | (rs1, none) => handleEvents rs1 bs

/-- Outcome of CapImgN.run. -/
inductive RunOut : Type
  /-- Normal termination: the yielded completions. -/
  | done (cs : List (Nat × List Nat × Nat)) : RunOut
  /-- The explicit timeout Exception raised by the main loop. -/
  | timedOut : RunOut
  /-- An exception propagated out of a transfer callback. -/
  | exn (e : PyErr) : RunOut
  /-- The schedule ended while the loop was still running. -/
  | fuel : RunOut
  deriving DecidableEq, Repr

/-- Final observation of a run: outcome, final session state, remaining
live transfers and the execution trace. -/
structure RunResult : Type where
  /-- The outcome. -/
  out : RunOut
  /-- The session state when run returned or raised. -/
  final : CapImgN
  /-- Transfers still live at that point. -/
  live : Nat
  /-- Snapshot trace of the execution. -/
  trace : List (Nat × Int × Nat)
  deriving DecidableEq, Repr

/-- Line 448 of the source: running is anded with the check that fewer
than n completions have been collected. -/
def runUpdateRunning (rs : RunState) : RunState :=
  { rs with cap := { rs.cap with
      running := rs.cap.running && decide (rs.cap.completions.length < rs.cap.n) } }

/-- Lines 453-454 of the source: while running and mid-frame, top the
pool up to urb_max outstanding reads. -/
def runAlloc (rs : RunState) : RunState :=
  if rs.cap.running ∧ rs.cap.state = MSG_BEGIN then
    allocUrb rs (CapImgN.urb_max - rs.cap.urb_remain).toNat
  else rs

/-- One iteration body of the while loop of CapImgN.run: update running,
raise the timeout Exception if the deadline passed, top up the pool, then
poll for events.  Left value: run terminates abruptly with this result;
right value: the loop continues with the new state. -/
def runStep (timeout_ms elapsed : Nat) (events : List (List Nat)) (rs : RunState) :
    RunResult ⊕ RunState :=
  if timeout_ms ≤ elapsed then
    Sum.inl { out := RunOut.timedOut
              final := { (runUpdateRunning rs).cap with running := false }
              live := rs.live
              trace := rs.trace }
  else
    match handleEvents (runAlloc (runUpdateRunning rs)) events with
    | (rs3, some e) =>
      Sum.inl { out := RunOut.exn e, final := rs3.cap, live := rs3.live, trace := rs3.trace }
    | (rs3, none) => Sum.inr rs3

/-- The while loop of CapImgN.run (lines 447-456), driven by a schedule:
one entry per iteration, holding the elapsed milliseconds observed at the
top of the iteration and the buffers delivered by that iteration of the
handleEventsTimeout poll.  The finally clause clears running. -/
def runLoop (timeout_ms : Nat) : RunState → List (Nat × List (List Nat)) → RunResult
  | rs, sched =>
    if rs.cap.urb_remain = 0 then
      { out := RunOut.done rs.cap.completions, final := { rs.cap with running := false },
        live := rs.live, trace := rs.trace }
    else
      match sched with
      | [] => { out := RunOut.fuel, final := rs.cap, live := rs.live, trace := rs.trace }
      | (elapsed, events) :: rest =>
        match runStep timeout_ms elapsed events rs with
        | Sum.inl r => r
        | Sum.inr rs3 => runLoop timeout_ms rs3 rest

/-- CapImgN.run (lines 436-465): reset the bookkeeping count, submit one
transfer, then drive the event loop. -/
def CapImgN.run (width height depth n timeout_ms : Nat)
    (sched : List (Nat × List (List Nat))) : RunResult :=
  let cap0 := CapImgN.init width height depth n
  let rs0 := allocUrb { cap := { cap0 with urb_remain := 0 }, live := 0, trace := [] } 1
  runLoop timeout_ms rs0 sched

/-- Status field of an END buffer as process_end parses it. -/
def endStatus (buff : List Nat) : Nat :=
  unpack16_le ((buff.take MSG_END_SZ).drop 2)

/-- Counter field of an END buffer as process_end parses it. -/
def endCounter (buff : List Nat) : Nat :=
  unpack16_le ((buff.take MSG_END_SZ).drop 4)

/-- Footer value of a frame whose accumulation buffer is rb. -/
def frameFooter (s : CapImgN) (rb : List Nat) : Nat :=
  unpack16_le ((rb.take s.imgx_sz).drop s.imgsz)

/-- A BEGIN buffer. -/
def beginBuf : List Nat := [0x02, 0x80]

/-- Four data bytes: a full 1 by 1 pixel image plus its 2-byte footer. -/
def dataBuf : List Nat := [0, 0, 0, 0]

/-- END buffer with status OK (3) and counter 7. -/
def endOkBuf : List Nat := [0x04, 0x80, 0x03, 0x00, 0x07, 0x00]

/-- END buffer with status OK (3) and counter 8. -/
def endOk8Buf : List Nat := [0x04, 0x80, 0x03, 0x00, 0x08, 0x00]

/-- END buffer with status NOK (7) and counter 9. -/
def endNokBuf : List Nat := [0x04, 0x80, 0x07, 0x00, 0x09, 0x00]

/-- A 1 by 1 session in mid-frame whose accumulation buffer holds a full
image, the footer and two trailing bytes of the next transfer. -/
def capMid : CapImgN :=
  { CapImgN.init 1 1 2 1 with state := MSG_BEGIN, rawbuff := some [1, 2, 3, 4, 9, 9] }

/-- A 1 by 1 session in mid-frame with exactly image plus footer. -/
def capFrame : CapImgN :=
  { CapImgN.init 1 1 2 1 with state := MSG_BEGIN, rawbuff := some [1, 2, 3, 4] }

/-- END buffer with status OK (3) and counter 5. -/
def endCnt5 : List Nat := [0x04, 0x80, 0x03, 0x00, 0x05, 0x00]

/-- Schedule on which nothing ever arrives and the clock jumps past the
deadline at the first loop iteration. -/
def schedTimeout : List (Nat × List (List Nat)) := [(999999, [])]

/-- Schedule of a realistic capture: BEGIN observed, the loop tops up the
pool to 31 reads, the frame data and the OK END arrive, and the clock
then passes the deadline while the loop keeps spinning. -/
def schedLeak : List (Nat × List (List Nat)) :=
  [(0, [beginBuf]), (0, [dataBuf]), (0, [endOkBuf]), (9999, [])]

/-- Schedule in which a whole NOK frame and a whole OK frame are handled
inside a single poll call, so the loop never tops up the pool and a
single read serves the whole capture. -/
def schedSingle : List (Nat × List (List Nat)) :=
  [(0, [beginBuf, dataBuf, endNokBuf, beginBuf, [1, 0, 2, 0], endOk8Buf]), (0, [[]])]

/-- Schedule that reaches WAITING_BEGIN with the full pool outstanding:
BEGIN, pool top-up, frame data, then an NOK END. -/
def schedPool : List (Nat × List (List Nat)) :=
  [(0, [beginBuf]), (0, [dataBuf]), (0, [endNokBuf])]

/-- A snapshot in which the session is in WAITING_BEGIN while more than
one read is outstanding, both by the bookkeeping count and in fact. -/
def wbManyReads (e : Nat × Int × Nat) : Bool :=
  decide (e.1 = MSG_END) && decide ((1 : Int) < e.2.1) && decide (1 < e.2.2)

/-- Interpreter invariant: the live transfer count never exceeds the
bookkeeping count, the bookkeeping count never exceeds 31, and every
recorded snapshot respects the same 31 bound. -/
def RunInv (rs : RunState) : Prop :=
  (rs.live : Int) ≤ rs.cap.urb_remain ∧ rs.cap.urb_remain ≤ 31 ∧
    ∀ e ∈ rs.trace, e.2.1 ≤ 31 ∧ e.2.2 ≤ 31

/-- Builder for 1 by 1 capture session states used in concrete runs. -/
def mkCap (st : Nat) (rb : Option (List Nat)) (cs : List (Nat × List Nat × Nat))
    (urb : Int) (pk : Nat) (rn : Bool) : CapImgN :=
  { width := 1, height := 1, depth := 2, n := 1, state := st, rawbuff := rb,
    completions := cs, urb_remain := urb, packets := pk, running := rn }

/-- Interpreter state right after the initial single-read allocation. -/
def rsInit1 : RunState :=
  { cap := mkCap 32772 none [] 1 0 true, live := 1, trace := [(32772, 1, 1)] }

/-- State after the BEGIN buffer is handled on the single initial read. -/
def rsBeg1 : RunState :=
  { cap := mkCap 32770 (some []) [] 1 0 true, live := 1,
    trace := [(32772, 1, 1), (32770, 1, 1)] }

/-- State after the loop tops the pool up to 31 reads mid-frame. -/
def rsPoolA : RunState :=
  { cap := mkCap 32770 (some []) [] 31 0 true, live := 31,
    trace := [(32772, 1, 1), (32770, 1, 1), (32770, 31, 31)] }

/-- State after the frame data bytes are appended with the pool full. -/
def rsData1 : RunState :=
  { cap := mkCap 32770 (some [0, 0, 0, 0]) [] 31 1 true, live := 31,
    trace := [(32772, 1, 1), (32770, 1, 1), (32770, 31, 31), (32770, 31, 31)] }

/-- Same with the no-op pool top-up of the next iteration recorded. -/
def rsPoolB : RunState :=
  { cap := mkCap 32770 (some [0, 0, 0, 0]) [] 31 1 true, live := 31,
    trace := [(32772, 1, 1), (32770, 1, 1), (32770, 31, 31), (32770, 31, 31), (32770, 31, 31)] }

/-- State after the OK END is handled with the pool full: the frame is
accepted but the read that delivered it dangles and the count stays 31. -/
def rsEndOk1 : RunState :=
  { cap := mkCap 32772 none [(7, [0, 0], 0)] 31 1 true, live := 30,
    trace := [(32772, 1, 1), (32770, 1, 1), (32770, 31, 31), (32770, 31, 31), (32770, 31, 31),
      (32772, 31, 30)] }

/-- State after an NOK END is handled with the pool full. -/
def rsEndNok1 : RunState :=
  { cap := mkCap 32772 none [] 31 1 true, live := 30,
    trace := [(32772, 1, 1), (32770, 1, 1), (32770, 31, 31), (32770, 31, 31), (32770, 31, 31),
      (32772, 31, 30)] }

/-- Single-read run: state after the frame data of the NOK frame. -/
def rsS2 : RunState :=
  { cap := mkCap 32770 (some [0, 0, 0, 0]) [] 1 1 true, live := 1,
    trace := [(32772, 1, 1), (32770, 1, 1), (32770, 1, 1)] }

/-- Single-read run: state after the NOK END, frame discarded. -/
def rsS3 : RunState :=
  { cap := mkCap 32772 none [] 1 1 true, live := 1,
    trace := [(32772, 1, 1), (32770, 1, 1), (32770, 1, 1), (32772, 1, 1)] }

/-- Single-read run: state after the second BEGIN. -/
def rsS4 : RunState :=
  { cap := mkCap 32770 (some []) [] 1 0 true, live := 1,
    trace := [(32772, 1, 1), (32770, 1, 1), (32770, 1, 1), (32772, 1, 1), (32770, 1, 1)] }

/-- Single-read run: state after the second frame data. -/
def rsS5 : RunState :=
  { cap := mkCap 32770 (some [1, 0, 2, 0]) [] 1 1 true, live := 1,
    trace := [(32772, 1, 1), (32770, 1, 1), (32770, 1, 1), (32772, 1, 1), (32770, 1, 1),
      (32770, 1, 1)] }

/-- Single-read run: state after the OK END handled with exactly one read
outstanding, which is resubmitted. -/
def rsS6 : RunState :=
  { cap := mkCap 32772 none [(8, [1, 0], 2)] 1 1 true, live := 1,
    trace := [(32772, 1, 1), (32770, 1, 1), (32770, 1, 1), (32772, 1, 1), (32770, 1, 1),
      (32770, 1, 1), (32772, 1, 1)] }

/-- Single-read run: final callback with running cleared decrements the
count to zero. -/
def rsDrained : RunState :=
  { cap := mkCap 32772 none [(8, [1, 0], 2)] 0 1 false, live := 0,
    trace := [(32772, 1, 1), (32770, 1, 1), (32770, 1, 1), (32772, 1, 1), (32770, 1, 1),
      (32770, 1, 1), (32772, 1, 1), (32772, 0, 0)] }

/-- Single-read run: top of the loop after the target is reached, with
running cleared and the resubmitted read still outstanding. -/
def rsClose : RunState :=
  { cap := mkCap 32772 none [(8, [1, 0], 2)] 1 1 false, live := 1,
    trace := [(32772, 1, 1), (32770, 1, 1), (32770, 1, 1), (32772, 1, 1), (32770, 1, 1),
      (32770, 1, 1), (32772, 1, 1)] }

/-- Result of the pipelined capture: timeout with the accepted frame
stranded and 31 reads still counted. -/
def RLeak : RunResult :=
  { out := RunOut.timedOut, final := mkCap 32772 none [(7, [0, 0], 0)] 31 1 false, live := 30,
    trace := [(32772, 1, 1), (32770, 1, 1), (32770, 31, 31), (32770, 31, 31), (32770, 31, 31),
      (32772, 31, 30)] }

/-- Observation of the pool schedule at the end of its three iterations. -/
def RPool : RunResult :=
  { out := RunOut.fuel, final := mkCap 32772 none [] 31 1 true, live := 30,
    trace := [(32772, 1, 1), (32770, 1, 1), (32770, 31, 31), (32770, 31, 31), (32770, 31, 31),
      (32772, 31, 30)] }

/-- Result of the single-read capture: normal return with one completion
and zero outstanding reads. -/
def RSingle : RunResult :=
  { out := RunOut.done [(8, [1, 0], 2)], final := mkCap 32772 none [(8, [1, 0], 2)] 0 1 false,
    live := 0,
    trace := [(32772, 1, 1), (32770, 1, 1), (32770, 1, 1), (32772, 1, 1), (32770, 1, 1),
      (32770, 1, 1), (32772, 1, 1), (32772, 0, 0)] }

/-- Claim C1: the spec says cmd1 encodes opcode and payload length as two
big-endian 32-bit words followed by the payload.  The source instead
passes the single tuple (opcode, len(payload)) to struct.pack where the
format >II requires two separate integers, so every call of cmd1 raises
struct.error and no request frame is ever encoded. -/
theorem cmd1_always_struct_error (opcode : Nat) (payload : List Nat) :
    cmd1_buff opcode payload = PyResult.exn PyErr.structError := rfl

/-- Claim C2: the spec example decode([0x34,0x12,0x00,0x00], width=2,
height=1) should give the row [0x1234, 0x0000].  The source creates the
PIL image with size (height, width) — the axes swapped — and then writes
with putpixel((x, y)) for x up to width-1, so every non-square geometry,
including this example and the supported 2368 by 2340 one, raises
IndexError instead of returning a grid. -/
theorem decode_swapped_axes_index_error :
    decode [0x34, 0x12, 0x00, 0x00] 2 1 2 = PyResult.exn PyErr.indexError := by
  decide

/-- Claim C10: whenever the Hamamatsu.decode method returns normally it
returns None, because the method body calls the module-level decode but
has no return statement. -/
theorem hamamatsu_decode_returns_none (width height : Nat) (buff : List Nat)
    (img : Option PILImage) (h : Hamamatsu_decode width height buff = PyResult.ok img) :
    img = none := by
  unfold Hamamatsu_decode at h
  cases hd : decode buff width height 2 <;> rw [hd] at h <;> simp_all

/-- Witness for claim C10 at a concrete 1 by 1 buffer on which the inner
decode succeeds. -/
theorem hamamatsu_decode_returns_none_witness :
    Hamamatsu_decode 1 1 [0, 0] = PyResult.ok none ∧ (none : Option PILImage) = none := by
  have h : Hamamatsu_decode 1 1 [0, 0] = PyResult.ok none := by decide
  exact ⟨h, hamamatsu_decode_returns_none 1 1 [0, 0] none h⟩

/-- Claim C7: a buffer whose leading little-endian word is the WTF marker
resets the session to WAITING_BEGIN and drops the accumulation buffer, in
any state, with no exception and no new completion. -/
theorem handle_buff_wtf_resets (s : CapImgN) (buff : List Nat)
    (hlen : 2 ≤ buff.length) (hw : unpack16_le buff = MSG_WTF) :
    CapImgN.handle_buff s buff = ({ s with state := MSG_END, rawbuff := none }, none) := by
  have h0 : ¬ buff.length = 0 := by omega
  have h1 : ¬ buff.length = 1 := by omega
  simp [CapImgN.handle_buff, is_sync, h0, h1, hw, MSG_WTF]

/-- Witness for claim C7: a WTF buffer arriving mid-frame discards the
in-progress accumulation buffer and no completion is emitted. -/
theorem handle_buff_wtf_resets_witness :
    CapImgN.handle_buff capMid [0x05, 0x80] =
      ({ capMid with state := MSG_END, rawbuff := none }, none) :=
  handle_buff_wtf_resets capMid [0x05, 0x80] (by decide) (by decide)

/-- Claim C9: in WAITING_BEGIN, a marker other than BEGIN, END or WTF —
such as the ABORTED marker — fails the assert in handle_buff, and the
callback then clears running and propagates the error, ending the
session. -/
theorem stray_marker_fatal (s : CapImgN) (buff : List Nat) (m : Nat)
    (hstate : s.state = MSG_END) (hrun : s.running = true)
    (hlen : 2 ≤ buff.length) (hm : unpack16_le buff = m) (hmark : 0x4000 ≤ m)
    (hb : m ≠ MSG_BEGIN) (he : m ≠ MSG_END) (hw : m ≠ MSG_WTF) :
    CapImgN.handle_buff s buff = (s, some PyErr.assertError) ∧
      (CapImgN.async_cb s buff).1.running = false ∧
      (CapImgN.async_cb s buff).2.1 = some PyErr.assertError := by
  have h0 : ¬ buff.length = 0 := by omega
  have h1 : ¬ buff.length = 1 := by omega
  have hm0 : ¬ m = 0 := by omega
  have hb2 : ¬ m = 32770 := by simpa [MSG_BEGIN] using hb
  have he2 : ¬ m = 32772 := by simpa [MSG_END] using he
  have hw2 : ¬ m = 32773 := by simpa [MSG_WTF] using hw
  have hh : CapImgN.handle_buff s buff = (s, some PyErr.assertError) := by
    simp [CapImgN.handle_buff, is_sync, h0, h1, hm, hmark, hstate, hm0, hb2, he2, hw2,
      MSG_BEGIN, MSG_END, MSG_WTF]
  have hcb : CapImgN.async_cb s buff = ({ s with running := false }, some PyErr.assertError, false) := by
    simp [CapImgN.async_cb, hrun, hh]
  exact ⟨hh, by rw [hcb], by rw [hcb]⟩

/-- Witness for claim C9: the ABORTED marker 0x8001 received while idle
is fatal. -/
theorem stray_marker_fatal_witness :
    CapImgN.handle_buff (CapImgN.init 1 1 2 1) [0x01, 0x80] =
        (CapImgN.init 1 1 2 1, some PyErr.assertError) ∧
      (CapImgN.async_cb (CapImgN.init 1 1 2 1) [0x01, 0x80]).1.running = false ∧
      (CapImgN.async_cb (CapImgN.init 1 1 2 1) [0x01, 0x80]).2.1 = some PyErr.assertError :=
  stray_marker_fatal (CapImgN.init 1 1 2 1) [0x01, 0x80] 0x8001 rfl rfl
    (by decide) (by decide) (by decide) (by decide) (by decide) (by decide)

/-- Helper: in IN_FRAME, a buffer with leading word MSG_END is routed to
process_end; on success the handler then clears the accumulation buffer
and returns to WAITING_BEGIN. -/
theorem handle_buff_end_inframe (s : CapImgN) (buff : List Nat)
    (hstate : s.state = MSG_BEGIN) (hlen : 2 ≤ buff.length)
    (hsync : unpack16_le buff = MSG_END) :
    CapImgN.handle_buff s buff =
      match CapImgN.process_end s buff with
      | (s1, some e) => (s1, some e)
      | (s1, none) => ({ s1 with rawbuff := none, state := MSG_END }, none) := by
  have h0 : ¬ buff.length = 0 := by omega
  have h1 : ¬ buff.length = 1 := by omega
  simp [CapImgN.handle_buff, is_sync, h0, h1, hsync, hstate, MSG_BEGIN, MSG_END, MSG_WTF]

/-- Claim C3 counterexample: a 1 by 1 frame finalized by an OK END while
the accumulation buffer holds two extra bytes [9, 9] beyond image plus
footer.  The finalization succeeds, yet afterwards the accumulation state
is None — the extra bytes are discarded — and the next BEGIN starts from
a fresh empty buffer, contradicting the claim that trailing bytes are
retained for the following frame. -/
theorem end_leftover_discarded_cx :
    (CapImgN.handle_buff capMid endOkBuf).2 = none ∧
      (CapImgN.handle_buff capMid endOkBuf).1.rawbuff = none ∧
      (CapImgN.handle_buff (CapImgN.handle_buff capMid endOkBuf).1 beginBuf).1.rawbuff = some [] := by
  decide

/-- Claim C3 as amended: process_end itself reassigns the accumulation
variable to the bytes beyond image plus footer, but handle_buff discards
that leftover by setting the accumulation buffer to None as soon as
process_end returns without error, so trailing bytes never reach the
following frame. -/
theorem process_end_keeps_caller_discards (s : CapImgN) (rb buff : List Nat)
    (hraw : s.rawbuff = some rb) (hstate : s.state = MSG_BEGIN)
    (hlen : 2 ≤ buff.length) (hsync : unpack16_le buff = MSG_END) :
    (CapImgN.process_end s buff).1.rawbuff = some (rb.drop s.imgx_sz) ∧
      ((CapImgN.handle_buff s buff).2 = none →
        (CapImgN.handle_buff s buff).1.rawbuff = none) := by
  constructor
  · unfold CapImgN.process_end
    rw [hraw]
    dsimp only
    repeat' split
    all_goals rfl
  · intro hnone
    rw [handle_buff_end_inframe s buff hstate hlen hsync] at hnone ⊢
    rcases hp : CapImgN.process_end s buff with ⟨s1, e⟩
    rw [hp] at hnone
    cases e
    · rfl
    · exact Option.noConfusion hnone

/-- Witness for the amended claim C3 at the counterexample state. -/
theorem process_end_keeps_caller_discards_witness :
    (CapImgN.process_end capMid endCnt5).1.rawbuff =
        some ([1, 2, 3, 4, 9, 9].drop capMid.imgx_sz) ∧
      ((CapImgN.handle_buff capMid endCnt5).2 = none →
        (CapImgN.handle_buff capMid endCnt5).1.rawbuff = none) :=
  process_end_keeps_caller_discards capMid [1, 2, 3, 4, 9, 9] endCnt5 rfl rfl
    (by decide) (by decide)

/-- Helper: full evaluation of process_end when the accumulation buffer
covers image plus footer and the END buffer has a well-formed trailer.
The three status outcomes of the source are laid out explicitly. -/
theorem process_end_spec (s : CapImgN) (buff rb : List Nat)
    (hraw : s.rawbuff = some rb) (hrb : s.imgx_sz ≤ rb.length)
    (hlen : 6 ≤ buff.length) (hop : unpack16_le buff = MSG_END) :
    CapImgN.process_end s buff =
      if endStatus buff = STATUS_NOK then
        ({ s with rawbuff := some (rb.drop s.imgx_sz) }, none)
      else if endStatus buff = STATUS_OK then
        ({ s with
            rawbuff := some (rb.drop s.imgx_sz)
            completions := s.completions ++
              [(endCounter buff, rb.take s.imgsz, frameFooter s rb)] }, none)
      else ({ s with rawbuff := some (rb.drop s.imgx_sz) }, some PyErr.assertError) := by
  have hx : s.imgx_sz = s.imgsz + 2 := rfl
  have h2 : 2 ≤ buff.length := by omega
  have hfoot : ((rb.take s.imgx_sz).drop s.imgsz).length = 2 := by
    simp [List.length_take, List.length_drop]
    omega
  have h6 : (buff.take MSG_END_SZ).length = 6 := by
    simp [List.length_take, MSG_END_SZ]
    omega
  have htt : (rb.take s.imgx_sz).take s.imgsz = rb.take s.imgsz := by
    rw [List.take_take]
    congr 1
    omega
  have hlenimg : (rb.take s.imgsz).length = s.imgsz := by
    simp [List.length_take]
    omega
  unfold CapImgN.process_end
  rw [hraw]
  simp [hfoot, h2, hop, h6, htt, hlenimg, endStatus, endCounter, frameFooter]

/-- Claim C5: for an END buffer handled in IN_FRAME over a sufficient
accumulation buffer, status 3 appends (counter, raw image, footer) to the
completion list with no error, status 7 discards the frame with no error
and no completion, and any other status raises the fatal assert with the
completion list unchanged. -/
theorem end_status_dispatch (s : CapImgN) (buff rb : List Nat)
    (hstate : s.state = MSG_BEGIN) (hraw : s.rawbuff = some rb)
    (hrb : s.imgx_sz ≤ rb.length) (hlen : 6 ≤ buff.length)
    (hsync : unpack16_le buff = MSG_END) :
    (endStatus buff = STATUS_OK →
      (CapImgN.handle_buff s buff).2 = none ∧
        (CapImgN.handle_buff s buff).1.completions =
          s.completions ++ [(endCounter buff, rb.take s.imgsz, frameFooter s rb)]) ∧
    (endStatus buff = STATUS_NOK →
      (CapImgN.handle_buff s buff).2 = none ∧
        (CapImgN.handle_buff s buff).1.completions = s.completions) ∧
    (endStatus buff ≠ STATUS_OK → endStatus buff ≠ STATUS_NOK →
      (CapImgN.handle_buff s buff).2 = some PyErr.assertError ∧
        (CapImgN.handle_buff s buff).1.completions = s.completions) := by
  have h2 : 2 ≤ buff.length := by omega
  have hhb := handle_buff_end_inframe s buff hstate h2 hsync
  have hpe := process_end_spec s buff rb hraw hrb hlen hsync
  refine ⟨?_, ?_, ?_⟩
  · intro hok
    have hnok : ¬ endStatus buff = STATUS_NOK := by simp [hok, STATUS_OK, STATUS_NOK]
    rw [hhb, hpe]
    simp [hok, hnok, STATUS_OK, STATUS_NOK]
  · intro hnok
    rw [hhb, hpe]
    simp [hnok]
  · intro hnotok hnotnok
    rw [hhb, hpe]
    simp [hnotok, hnotnok]

/-- Witness for claim C5: an OK END with counter 5 over a 1 by 1 frame
appends the completion and raises nothing. -/
theorem end_status_dispatch_witness :
    (CapImgN.handle_buff capFrame endCnt5).2 = none ∧
      (CapImgN.handle_buff capFrame endCnt5).1.completions =
        capFrame.completions ++
          [(endCounter endCnt5, [1, 2, 3, 4].take capFrame.imgsz, frameFooter capFrame [1, 2, 3, 4])] :=
  (end_status_dispatch capFrame endCnt5 [1, 2, 3, 4] rfl rfl (by decide) (by decide)
    (by decide)).1 (by decide)

/-- Helper: an abrupt result of one loop iteration carries the timeout
outcome only from the deadline branch, where the session keeps its
outstanding-read count and only the running flag is cleared. -/
theorem runStep_timedOut (timeout_ms elapsed : Nat) (events : List (List Nat))
    (rs : RunState) (r : RunResult) (h : runStep timeout_ms elapsed events rs = Sum.inl r)
    (ho : r.out = RunOut.timedOut) :
    r.final.urb_remain = rs.cap.urb_remain ∧ r.final.running = false := by
  unfold runStep at h
  split at h
  · injection h with h
    subst h
    exact ⟨rfl, rfl⟩
  · split at h
    · injection h with h
      subst h
      exact RunOut.noConfusion ho
    · exact Sum.noConfusion h

/-- Helper: whenever the loop of CapImgN.run ends with the timeout
Exception, the outstanding-read count of the final state is the nonzero
count that let the loop continue, and the finally clause has cleared
running. -/
theorem runLoop_timedOut_spec (timeout_ms : Nat) :
    ∀ (sched : List (Nat × List (List Nat))) (rs : RunState) (r : RunResult),
      runLoop timeout_ms rs sched = r → r.out = RunOut.timedOut →
      r.final.urb_remain ≠ 0 ∧ r.final.running = false := by
  intro sched
  induction sched with
  | nil =>
    intro rs r h ho
    unfold runLoop at h
    split at h
    · subst h
      exact RunOut.noConfusion ho
    · subst h
      exact RunOut.noConfusion ho
  | cons hd tl ih =>
    obtain ⟨elapsed, events⟩ := hd
    intro rs r h ho
    unfold runLoop at h
    split at h
    · subst h
      exact RunOut.noConfusion ho
    · rename_i hz
      dsimp only at h
      split at h
      · rename_i r0 heq
        subst h
        have hs := runStep_timedOut timeout_ms elapsed events rs r0 heq ho
        exact ⟨by rw [hs.1]; exact hz, hs.2⟩
      · rename_i rs3 heq
        exact ih rs3 r h ho

/-- Claim C4 counterexample: with no data arriving and the clock past the
deadline at the first loop iteration, run raises the timeout Exception
while one read is still outstanding, both by the bookkeeping count and in
fact, so outstanding reads are not drained to zero when the error is
surfaced. -/
theorem run_timeout_urbs_outstanding_cx :
    (CapImgN.run 1 1 2 1 2500 schedTimeout).out = RunOut.timedOut ∧
      (CapImgN.run 1 1 2 1 2500 schedTimeout).final.urb_remain = 1 ∧
      (CapImgN.run 1 1 2 1 2500 schedTimeout).live = 1 := by
  decide

/-- Claim C4 as amended: when fewer than n frames are accepted before the
deadline, run fails with the timeout Exception and the running flag is
cleared, but the count of outstanding asynchronous reads is not drained:
it is still nonzero at the moment the error reaches the caller. -/
theorem run_timeout_not_drained (width height depth n timeout_ms : Nat)
    (sched : List (Nat × List (List Nat)))
    (h : (CapImgN.run width height depth n timeout_ms sched).out = RunOut.timedOut) :
    (CapImgN.run width height depth n timeout_ms sched).final.urb_remain ≠ 0 ∧
      (CapImgN.run width height depth n timeout_ms sched).final.running = false :=
  runLoop_timedOut_spec timeout_ms sched _ _ rfl h

/-- Witness for the amended claim C4 on the concrete empty schedule. -/
theorem run_timeout_not_drained_witness :
    (CapImgN.run 1 1 2 1 2500 schedTimeout).final.urb_remain ≠ 0 ∧
      (CapImgN.run 1 1 2 1 2500 schedTimeout).final.running = false :=
  run_timeout_not_drained 1 1 2 1 2500 schedTimeout (by decide)


/-- Helper: a poll call steps through its first event when that event
raises nothing. -/
theorem handleEvents_cons_ok (rs rs1 : RunState) (b : List Nat) (bs : List (List Nat))
    (h : handleEvent rs b = (rs1, none)) :
    handleEvents rs (b :: bs) = handleEvents rs1 bs := by
  conv_lhs => unfold handleEvents
  rw [h]

/-- Helper: one loop iteration that neither times out nor raises yields
the state produced by the poll over its events. -/
theorem runStep_eval (t elapsed : Nat) (events : List (List Nat)) (rs rs2 rs3 : RunState)
    (ht : ¬ t ≤ elapsed) (ha : runAlloc (runUpdateRunning rs) = rs2)
    (he : handleEvents rs2 events = (rs3, none)) :
    runStep t elapsed events rs = Sum.inr rs3 := by
  unfold runStep
  rw [if_neg ht, ha, he]

/-- Helper: the run loop recurses on the schedule tail after a normal
iteration, as long as reads remain outstanding. -/
theorem runLoop_step (t : Nat) (rs rs3 : RunState) (elapsed : Nat)
    (events : List (List Nat)) (rest : List (Nat × List (List Nat)))
    (hz : ¬ rs.cap.urb_remain = 0) (hs : runStep t elapsed events rs = Sum.inr rs3) :
    runLoop t rs ((elapsed, events) :: rest) = runLoop t rs3 rest := by
  conv_lhs => unfold runLoop
  rw [if_neg hz]
  dsimp only
  rw [hs]

/-- Helper: the run loop surfaces an abrupt iteration result directly. -/
theorem runLoop_abrupt (t : Nat) (rs : RunState) (r : RunResult) (elapsed : Nat)
    (events : List (List Nat)) (rest : List (Nat × List (List Nat)))
    (hz : ¬ rs.cap.urb_remain = 0) (hs : runStep t elapsed events rs = Sum.inl r) :
    runLoop t rs ((elapsed, events) :: rest) = r := by
  unfold runLoop
  rw [if_neg hz]
  dsimp only
  rw [hs]

/-- Helper: the loop exits normally once no reads are outstanding. -/
theorem runLoop_done_eval (t : Nat) (rs : RunState) (sched : List (Nat × List (List Nat)))
    (hz : rs.cap.urb_remain = 0) :
    runLoop t rs sched =
      { out := RunOut.done rs.cap.completions
        final := { rs.cap with running := false }
        live := rs.live
        trace := rs.trace } := by
  unfold runLoop
  rw [if_pos hz]

/-- Helper: observation of an execution cut off by the schedule while
reads are still outstanding. -/
theorem runLoop_fuel_eval (t : Nat) (rs : RunState) (hz : ¬ rs.cap.urb_remain = 0) :
    runLoop t rs [] =
      { out := RunOut.fuel, final := rs.cap, live := rs.live, trace := rs.trace } := by
  unfold runLoop
  rw [if_neg hz]

/-- Helper: CapImgN.run is the loop started from the state after the
single initial allocation. -/
theorem run_eval (width height depth n t : Nat) (sched : List (Nat × List (List Nat)))
    (rs0 : RunState)
    (h : allocUrb
        { cap := { CapImgN.init width height depth n with urb_remain := 0 }
          live := 0
          trace := [] } 1 = rs0) :
    CapImgN.run width height depth n t sched = runLoop t rs0 sched := by
  unfold CapImgN.run
  rw [← h]

/-- Helper: full evaluation of the pipelined capture schedule, stepped
one loop iteration at a time. -/
theorem capRunLeak : CapImgN.run 1 1 2 1 2500 schedLeak = RLeak := by
  have s1 : runStep 2500 0 [beginBuf] rsInit1 = Sum.inr rsBeg1 := by decide
  have s2 : runStep 2500 0 [dataBuf] rsBeg1 = Sum.inr rsData1 := by decide
  have s3 : runStep 2500 0 [endOkBuf] rsData1 = Sum.inr rsEndOk1 := by decide
  have s4 : runStep 2500 9999 [] rsEndOk1 = Sum.inl RLeak := by decide
  rw [run_eval 1 1 2 1 2500 schedLeak rsInit1 (by decide)]
  unfold schedLeak
  rw [runLoop_step 2500 rsInit1 rsBeg1 0 [beginBuf] _ (by decide) s1]
  rw [runLoop_step 2500 rsBeg1 rsData1 0 [dataBuf] _ (by decide) s2]
  rw [runLoop_step 2500 rsData1 rsEndOk1 0 [endOkBuf] _ (by decide) s3]
  rw [runLoop_abrupt 2500 rsEndOk1 RLeak 9999 [] [] (by decide) s4]

/-- Claim C6 counterexample: a capture of n = 1 in which the loop tops the
pool up to 31 reads mid-frame and the frame is then accepted with status
OK.  The callback that handles that END sees WAITING_BEGIN with 31 reads
counted, so it neither resubmits nor decrements; the count can never
drain to zero, and the call ends with the timeout Exception instead of
returning the accepted frame, with 31 reads still counted outstanding. -/
theorem run_pipelined_leak_cx :
    (CapImgN.run 1 1 2 1 2500 schedLeak).out = RunOut.timedOut ∧
      (CapImgN.run 1 1 2 1 2500 schedLeak).final.completions = [(7, [0, 0], 0)] ∧
      (CapImgN.run 1 1 2 1 2500 schedLeak).final.urb_remain = 31 := by
  rw [capRunLeak]
  decide

/-- Helper: full evaluation of the single-read capture schedule. -/
theorem capRunSingle : CapImgN.run 1 1 2 1 2500 schedSingle = RSingle := by
  have e1 : handleEvent rsInit1 beginBuf = (rsBeg1, none) := by decide
  have e2 : handleEvent rsBeg1 dataBuf = (rsS2, none) := by decide
  have e3 : handleEvent rsS2 endNokBuf = (rsS3, none) := by decide
  have e4 : handleEvent rsS3 beginBuf = (rsS4, none) := by decide
  have e5 : handleEvent rsS4 [1, 0, 2, 0] = (rsS5, none) := by decide
  have e6 : handleEvent rsS5 endOk8Buf = (rsS6, none) := by decide
  have he : handleEvents rsInit1 [beginBuf, dataBuf, endNokBuf, beginBuf, [1, 0, 2, 0], endOk8Buf] =
      (rsS6, none) := by
    rw [handleEvents_cons_ok _ _ _ _ e1, handleEvents_cons_ok _ _ _ _ e2,
      handleEvents_cons_ok _ _ _ _ e3, handleEvents_cons_ok _ _ _ _ e4,
      handleEvents_cons_ok _ _ _ _ e5, handleEvents_cons_ok _ _ _ _ e6]
    rfl
  have t1 : runStep 2500 0 [beginBuf, dataBuf, endNokBuf, beginBuf, [1, 0, 2, 0], endOk8Buf]
      rsInit1 = Sum.inr rsS6 :=
    runStep_eval 2500 0 _ rsInit1 rsInit1 rsS6 (by decide) (by decide) he
  have t2 : runStep 2500 0 [[]] rsS6 = Sum.inr rsDrained :=
    runStep_eval 2500 0 [[]] rsS6 rsClose rsDrained (by decide) (by decide) (by decide)
  rw [run_eval 1 1 2 1 2500 schedSingle rsInit1 (by decide)]
  unfold schedSingle
  rw [runLoop_step 2500 rsInit1 rsS6 0 _ _ (by decide) t1]
  rw [runLoop_step 2500 rsS6 rsDrained 0 [[]] [] (by decide) t2]
  rw [runLoop_done_eval 2500 rsDrained [] (by decide)]
  decide

/-- Claim C6 as amended: in an execution where the main loop never tops up
the pool — every callback, including each END, fires with exactly one
read outstanding — requesting one completion terminates after exactly the
one accepted frame, in END order, with an interleaved NOK frame discarded
and not counted, and both the bookkeeping count and the live count of
outstanding reads are zero immediately after the normal return. -/
theorem run_single_read_exact_n :
    (CapImgN.run 1 1 2 1 2500 schedSingle).out = RunOut.done [(8, [1, 0], 2)] ∧
      (CapImgN.run 1 1 2 1 2500 schedSingle).final.urb_remain = 0 ∧
      (CapImgN.run 1 1 2 1 2500 schedSingle).live = 0 := by
  rw [capRunSingle]
  decide

/-- Helper: full evaluation of the pool schedule, which stops right after
an NOK END handled with the pool full. -/
theorem capRunPool : CapImgN.run 1 1 2 1 2500 schedPool = RPool := by
  have s1 : runStep 2500 0 [beginBuf] rsInit1 = Sum.inr rsBeg1 := by decide
  have s2 : runStep 2500 0 [dataBuf] rsBeg1 = Sum.inr rsData1 := by decide
  have s3 : runStep 2500 0 [endNokBuf] rsData1 = Sum.inr rsEndNok1 := by decide
  rw [run_eval 1 1 2 1 2500 schedPool rsInit1 (by decide)]
  unfold schedPool
  rw [runLoop_step 2500 rsInit1 rsBeg1 0 [beginBuf] _ (by decide) s1]
  rw [runLoop_step 2500 rsBeg1 rsData1 0 [dataBuf] _ (by decide) s2]
  rw [runLoop_step 2500 rsData1 rsEndNok1 0 [endNokBuf] _ (by decide) s3]
  rw [runLoop_fuel_eval 2500 rsEndNok1 (by decide)]
  decide

/-- Claim C8 counterexample: right after an END is handled with the pool
topped up, the execution trace holds a snapshot in WAITING_BEGIN with 31
reads in the bookkeeping count and 30 actually outstanding — more than
the single read the claim allows in that state. -/
theorem waiting_begin_pool_cx :
    (CapImgN.run 1 1 2 1 2500 schedPool).trace.any wbManyReads = true := by
  rw [capRunPool]
  decide

/-- Helper: process_end never touches the outstanding-read count. -/
theorem process_end_urb (s : CapImgN) (buff : List Nat) :
    (CapImgN.process_end s buff).1.urb_remain = s.urb_remain := by
  unfold CapImgN.process_end
  split
  · rfl
  · dsimp only
    repeat' split
    all_goals rfl

/-- Helper: handle_buff never touches the outstanding-read count. -/
theorem handle_buff_urb (s : CapImgN) (buff : List Nat) :
    (CapImgN.handle_buff s buff).1.urb_remain = s.urb_remain := by
  unfold CapImgN.handle_buff
  repeat' split
  all_goals try rfl
  all_goals
    rename_i heq
    have hp := process_end_urb s buff
    rw [heq] at hp
    exact hp

/-- Helper: the callback either keeps the count unchanged, or decrements
it by one without resubmitting. -/
theorem async_cb_urb (s : CapImgN) (buff : List Nat) :
    (CapImgN.async_cb s buff).1.urb_remain = s.urb_remain ∨
      ((CapImgN.async_cb s buff).1.urb_remain = s.urb_remain - 1 ∧
        (CapImgN.async_cb s buff).2.2 = false) := by
  unfold CapImgN.async_cb
  split
  · split
    · rename_i s1 e heq
      have hp := handle_buff_urb s buff
      rw [heq] at hp
      exact Or.inl hp
    · rename_i s1 heq
      have hp := handle_buff_urb s buff
      rw [heq] at hp
      split
      · exact Or.inl hp
      · split
        · exact Or.inl hp
        · exact Or.inl hp
  · exact Or.inr ⟨rfl, rfl⟩

/-- Helper: delivering one event preserves the interpreter invariant. -/
theorem handleEvent_inv (rs : RunState) (buff : List Nat) (h : RunInv rs) :
    RunInv (handleEvent rs buff).1 := by
  obtain ⟨h1, h2, h3⟩ := h
  unfold handleEvent
  split
  · exact ⟨h1, h2, h3⟩
  · rename_i hl
    split
    · rename_i cap1 e heq
      have hu := async_cb_urb rs.cap buff
      rw [heq] at hu
      dsimp only at hu ⊢
      refine ⟨?_, ?_, ?_⟩
      · dsimp only
        rcases hu with hu | ⟨hu, _⟩ <;> omega
      · dsimp only
        rcases hu with hu | ⟨hu, _⟩ <;> omega
      · intro x hx
        rcases List.mem_append.mp hx with hx | hx
        · exact h3 x hx
        · rcases List.mem_singleton.mp hx with hx
          subst hx
          rcases hu with hu | ⟨hu, _⟩ <;> constructor <;> dsimp only <;> omega
    · rename_i cap1 resub heq
      have hu := async_cb_urb rs.cap buff
      rw [heq] at hu
      dsimp only at hu ⊢
      cases resub
      · simp only [Bool.false_eq_true, if_false] at *
        refine ⟨?_, ?_, ?_⟩
        · dsimp only
          rcases hu with hu | ⟨hu, _⟩ <;> omega
        · dsimp only
          rcases hu with hu | ⟨hu, _⟩ <;> omega
        · intro x hx
          rcases List.mem_append.mp hx with hx | hx
          · exact h3 x hx
          · rcases List.mem_singleton.mp hx with hx
            subst hx
            rcases hu with hu | ⟨hu, _⟩ <;> constructor <;> dsimp only <;> omega
      · rcases hu with hu | ⟨hu, hfalse⟩
        · simp only [if_true] at *
          refine ⟨?_, ?_, ?_⟩
          · dsimp only
            omega
          · dsimp only
            omega
          · intro x hx
            rcases List.mem_append.mp hx with hx | hx
            · exact h3 x hx
            · rcases List.mem_singleton.mp hx with hx
              subst hx
              constructor <;> dsimp only <;> omega
        · exact absurd hfalse (by simp)

/-- Helper: a whole poll call preserves the interpreter invariant. -/
theorem handleEvents_inv (events : List (List Nat)) :
    ∀ rs : RunState, RunInv rs → RunInv (handleEvents rs events).1 := by
  induction events with
  | nil => intro rs h; exact h
  | cons b bs ih =>
    intro rs h
    unfold handleEvents
    split
    · rename_i rs1 e heq
      have hi := handleEvent_inv rs b h
      rw [heq] at hi
      exact hi
    · rename_i rs1 heq
      have hi := handleEvent_inv rs b h
      rw [heq] at hi
      exact ih rs1 hi

/-- Helper: allocating k more reads preserves the invariant as long as
the count stays within the 31 bound. -/
theorem allocUrb_inv (rs : RunState) (k : Nat) (h : RunInv rs)
    (hk : rs.cap.urb_remain + k ≤ 31) : RunInv (allocUrb rs k) := by
  obtain ⟨h1, h2, h3⟩ := h
  unfold allocUrb
  refine ⟨?_, ?_, ?_⟩
  · dsimp only
    push_cast
    omega
  · dsimp only
    omega
  · intro x hx
    dsimp only at hx
    rcases List.mem_append.mp hx with hx | hx
    · exact h3 x hx
    · rcases List.mem_singleton.mp hx with hx
      subst hx
      constructor <;> dsimp only <;> omega

/-- Helper: the pool top-up step preserves the invariant: it never pushes
the count past 31. -/
theorem runAlloc_inv (rs : RunState) (h : RunInv rs) : RunInv (runAlloc rs) := by
  unfold runAlloc
  split
  · refine allocUrb_inv rs _ h ?_
    have h2 := h.2.1
    unfold CapImgN.urb_max
    omega
  · exact h

/-- Helper: the running-flag update touches none of the counted state. -/
theorem runUpdateRunning_inv (rs : RunState) (h : RunInv rs) :
    RunInv (runUpdateRunning rs) := h

/-- Helper: one loop iteration preserves the invariant; an abrupt result
only ever carries a trace whose snapshots respect the 31 bound. -/
theorem runStep_inv (t elapsed : Nat) (events : List (List Nat)) (rs : RunState)
    (h : RunInv rs) :
    (∀ r, runStep t elapsed events rs = Sum.inl r →
      ∀ x ∈ r.trace, x.2.1 ≤ 31 ∧ x.2.2 ≤ 31) ∧
      (∀ rs3, runStep t elapsed events rs = Sum.inr rs3 → RunInv rs3) := by
  unfold runStep
  split
  · constructor
    · intro r hr x hx
      injection hr with hr
      subst hr
      exact h.2.2 x hx
    · intro rs3 hr
      exact Sum.noConfusion hr
  · have hpoll := handleEvents_inv events (runAlloc (runUpdateRunning rs))
      (runAlloc_inv (runUpdateRunning rs) (runUpdateRunning_inv rs h))
    split
    · rename_i rs3 e heq
      rw [heq] at hpoll
      constructor
      · intro r hr x hx
        injection hr with hr
        subst hr
        exact hpoll.2.2 x hx
      · intro rs3x hr
        exact Sum.noConfusion hr
    · rename_i rs3 heq
      rw [heq] at hpoll
      constructor
      · intro r hr
        exact Sum.noConfusion hr
      · intro rs3x hr
        injection hr with hr
        subst hr
        exact hpoll

/-- Helper: every snapshot recorded over a whole loop execution respects
the 31 bound, given the invariant at entry. -/
theorem runLoop_trace_31 (t : Nat) :
    ∀ (sched : List (Nat × List (List Nat))) (rs : RunState) (r : RunResult),
      runLoop t rs sched = r → RunInv rs →
      ∀ x ∈ r.trace, x.2.1 ≤ 31 ∧ x.2.2 ≤ 31 := by
  intro sched
  induction sched with
  | nil =>
    intro rs r h hinv x hx
    unfold runLoop at h
    split at h <;> subst h <;> exact hinv.2.2 x hx
  | cons hd tl ih =>
    obtain ⟨elapsed, events⟩ := hd
    intro rs r h hinv x hx
    unfold runLoop at h
    split at h
    · subst h
      exact hinv.2.2 x hx
    · dsimp only at h
      split at h
      · rename_i r0 heq
        subst h
        exact (runStep_inv t elapsed events rs hinv).1 r0 heq x hx
      · rename_i rs3 heq
        exact ih rs3 r h ((runStep_inv t elapsed events rs hinv).2 rs3 heq) x hx

/-- Claim C8 as amended: throughout every capture session, both the
bookkeeping count and the live count of outstanding reads stay at most 31
in every recorded snapshot, in either state; the WAITING_BEGIN state only
bounds what the engine resubmits, not how many reads remain outstanding
right after a frame ends. -/
theorem urb_pool_bounded (width height depth n timeout_ms : Nat)
    (sched : List (Nat × List (List Nat))) (x : Nat × Int × Nat)
    (hx : x ∈ (CapImgN.run width height depth n timeout_ms sched).trace) :
    x.2.1 ≤ 31 ∧ x.2.2 ≤ 31 := by
  have hrun := run_eval width height depth n timeout_ms sched
    (allocUrb
      { cap := { CapImgN.init width height depth n with urb_remain := 0 }
        live := 0
        trace := [] } 1) rfl
  rw [hrun] at hx
  refine runLoop_trace_31 timeout_ms sched _ _ rfl ?_ x hx
  refine ⟨?_, ?_, ?_⟩
  · dsimp [allocUrb]
    omega
  · dsimp [allocUrb]
    omega
  · intro e he
    dsimp [allocUrb, CapImgN.init] at he
    simp at he
    subst he
    constructor <;> norm_num

/-- Witness for the amended claim C8: the snapshot after the initial
allocation of a run with an empty schedule. -/
theorem urb_pool_bounded_witness :
    ((32772, 1, 1) : Nat × Int × Nat) ∈ (CapImgN.run 1 1 2 1 2500 []).trace ∧
      (((32772, 1, 1) : Nat × Int × Nat).2.1 ≤ 31 ∧
        ((32772, 1, 1) : Nat × Int × Nat).2.2 ≤ 31) :=
  ⟨by decide, urb_pool_bounded 1 1 2 1 2500 [] (32772, 1, 1) (by decide)⟩
